import Mathlib

/-!
Shallow embedding of the TV-shows dashboard script (src/app.py).

The script loads a CSV of TV-show rows, normalizes dates and derives
`year`, `decade` and (when absent) `age_group`, filters rows by two
user-chosen selections (age groups and genres), and computes summary
metrics, a correlation matrix and a top-10 genre count over the
filtered view.

Tables are lists of rows.  Missing values (pandas NaN / NaT) are
`Option.none`.  Numeric columns are rationals.  Date parsing
(`pd.to_datetime` with coerce) is kept abstract as a parameter
`parseDate : String → Option Date`: a failed parse yields `none`,
exactly the coerce behaviour.  The textual-list decoding step
(`ast.literal_eval` on `genre_names` / `origin_country`) is not
modelled: input rows carry the already-decoded sequences, with `none`
standing for a cell that is not a sequence; no claim concerns that
decoding step.
-/

/-- A calendar date as produced by date parsing; only the year is
consumed downstream (`df.first_air_date.dt.year`). -/
structure Date where
  year : Int
  month : Nat
  day : Nat
deriving DecidableEq, Repr

/-- A raw input row, as read from the CSV (list columns already decoded,
see the file comment).  `age_group` is the value of the optional
`age_group` column when the CSV has one. -/
structure InputRow where
  first_air_date : Option String
  user_age : Int
  age_group : Option String
  genre_names : Option (List String)
  origin_country : Option (List String)
  popularity : Rat
  vote_average : Rat
  vote_count : Rat
deriving DecidableEq, Repr

/-- A loaded table row (the columns of `df` after `load_data`). -/
structure Row where
  first_air_date : Option Date
  year : Option Int
  decade : Option Int
  user_age : Int
  age_group : Option String
  genre_names : Option (List String)
  origin_country : Option (List String)
  popularity : Rat
  vote_average : Rat
  vote_count : Rat
deriving DecidableEq, Repr

/-- The six fixed age-group labels of the `pd.cut` call (app.py lines 49-52). -/
def ageGroupLabels : List String :=
  ["Teen (13–17)", "Young Adult (18–24)", "Adult (25–34)",
   "Mid Adult (35–44)", "Older Adult (45–54)", "Senior (55–70)"]

/-- `pd.cut(user_age, bins=[12,17,24,34,44,54,70], labels=...)` applied to
one integer age: half-open bins, right edge included, ages outside
`(12, 70]` map to `none` (app.py lines 46-53). -/
def ageGroupOfAge (a : Int) : Option String :=
  if 12 < a ∧ a ≤ 17 then some "Teen (13–17)"
  else if 17 < a ∧ a ≤ 24 then some "Young Adult (18–24)"
  else if 24 < a ∧ a ≤ 34 then some "Adult (25–34)"
  else if 34 < a ∧ a ≤ 44 then some "Mid Adult (35–44)"
  else if 44 < a ∧ a ≤ 54 then some "Older Adult (45–54)"
  else if 54 < a ∧ a ≤ 70 then some "Senior (55–70)"
  else none

/-- The parsed date of a raw row: a missing cell stays missing, a textual
cell goes through the abstract parse function (`pd.to_datetime`,
`errors="coerce"`, app.py line 40). -/
def parsedDate (parseDate : String → Option Date) (r : InputRow) : Option Date :=
  match r.first_air_date with
  | none => none
  | some s => parseDate s

/-- One row of `load_data` (app.py lines 40-53): date parsed with
null-coercion, `year` extracted from the date, `decade` by floor
division (`(year // 10) * 10`; null propagates through both), and
`age_group` derived from `user_age` by `pd.cut` only when the CSV has
no `age_group` column (`hasAgeGroup = false`). -/
def loadRow (parseDate : String → Option Date) (hasAgeGroup : Bool)
    (r : InputRow) : Row :=
  let d : Option Date := parsedDate parseDate r
  let y : Option Int := d.map Date.year
  { first_air_date := d
    year := y
    decade := y.map fun v => v.fdiv 10 * 10
    user_age := r.user_age
    age_group := if hasAgeGroup then r.age_group else ageGroupOfAge r.user_age
    genre_names := r.genre_names
    origin_country := r.origin_country
    popularity := r.popularity
    vote_average := r.vote_average
    vote_count := r.vote_count }

/-- `load_data` on a whole table: per-row transformation, no row dropped
(app.py lines 28-55). -/
def load (parseDate : String → Option Date) (hasAgeGroup : Bool)
    (rows : List InputRow) : List Row :=
  rows.map (loadRow parseDate hasAgeGroup)

/-- The age-group predicate `df["age_group"].isin(selected_age_groups)`
(app.py line 85).  A null `age_group` is in no selection of labels. -/
def agePred (selectedAgeGroups : List String) (r : Row) : Bool :=
  match r.age_group with
  | some a => selectedAgeGroups.contains a
  | none => false

/-- The genre predicate of app.py lines 87-92:
`any(g in genres for g in selected_genres) if isinstance(genres, list)
else False`.  Note the `any` ranges over the selected genres, so an
empty selection makes the predicate false on every row. -/
def genrePred (selectedGenres : List String) (r : Row) : Bool :=
  match r.genre_names with
  | some gs => selectedGenres.any fun g => gs.contains g
  | none => false

/-- The filtered view `df_filt` (app.py lines 85-92): the age-group
filter followed by the genre filter. -/
def dfFilt (df : List Row) (selectedAgeGroups selectedGenres : List String) :
    List Row :=
  (df.filter (agePred selectedAgeGroups)).filter (genrePred selectedGenres)

/-- The row-count metric `df_filt.shape[0]` (app.py line 100). -/
def totalShows (df : List Row) : Nat := df.length

/-- The mean of a numeric column (`Series.mean`): null on an empty
column, the arithmetic mean otherwise.  The display additionally rounds
the defined value; rounding maps a null to a null, so it is omitted. -/
def meanOpt (xs : List Rat) : Option Rat :=
  if xs.length = 0 then none else some (xs.sum / (xs.length : Rat))

/-- The four numeric columns of the correlation heatmap
(app.py line 146), as projections out of a row. -/
def numericCols : List (Row → Rat) :=
  [fun r => r.popularity, fun r => r.vote_average, fun r => r.vote_count,
   fun r => (r.user_age : Rat)]

open Classical in
/-- One entry of `df_filt[numeric_cols].corr()`: the Pearson correlation
of two columns, `none` exactly where pandas produces NaN — no data, or a
zero variance making the denominator zero (app.py line 147). -/
noncomputable def corrEntry (xs ys : List Rat) : Option Real :=
  if xs.length = 0 then none
  else
    let n : Real := xs.length
    let mx : Real := (xs.sum : Real) / n
    let my : Real := (ys.sum : Real) / n
    let sxy : Real := ((xs.zip ys).map fun p => ((p.1 : Real) - mx) * ((p.2 : Real) - my)).sum
    let sxx : Real := (xs.map fun x => ((x : Real) - mx) ^ 2).sum
    let syy : Real := (ys.map fun y => ((y : Real) - my) ^ 2).sum
    if sxx = 0 ∨ syy = 0 then none
    else some (sxy / Real.sqrt (sxx * syy))

/-- The correlation matrix `corr` over the four numeric columns of the
filtered view (app.py lines 146-147). -/
noncomputable def corrMatrix (df : List Row) : List (List (Option Real)) :=
  numericCols.map fun f => numericCols.map fun g => corrEntry (df.map f) (df.map g)

/-- `df_filt.explode("genre_names")["genre_names"]` restricted to the
non-null exploded values, which is what `value_counts` counts: a list
cell contributes one occurrence per element, a null (non-sequence) cell
and an empty list cell contribute the single NaN row that
`value_counts` drops (app.py line 159). -/
def explodeGenres (df : List Row) : List String :=
  (df.map fun r =>
    match r.genre_names with
    | some gs => gs
    | none => []).flatten

/-- The distinct values of a list in first-encountered order (the key
order `value_counts` uses before sorting): deduplicate the reversal,
keeping its last occurrences, then reverse back. -/
def uniqueFirst (xs : List String) : List String := xs.reverse.dedup.reverse

/-- Descending order on counted pairs: the right count is at most the
left count. -/
def cntGE (p q : String × Nat) : Prop := q.2 ≤ p.2

instance : DecidableRel cntGE := fun p q => Nat.decLe q.2 p.2

instance : IsTotal (String × Nat) cntGE := ⟨fun p q => Nat.le_total q.2 p.2⟩

instance : IsTrans (String × Nat) cntGE := ⟨fun _ _ _ h1 h2 => Nat.le_trans h2 h1⟩

/-- `value_counts().head(10)` on the exploded genre column (app.py lines
158-162): pair each distinct genre with its occurrence count, sort by
count descending (stable, so ties keep first-encountered order), keep
the first ten. -/
def genreCounts (df : List Row) : List (String × Nat) :=
  let ex := explodeGenres df
  (List.insertionSort cntGE ((uniqueFirst ex).map fun g => (g, ex.count g))).take 10

/-- A concrete teen Drama row used to instantiate theorems. -/
def rowDrama : Row :=
  { first_air_date := some ⟨2020, 1, 1⟩
    year := some 2020
    decade := some 2020
    user_age := 16
    age_group := some "Teen (13–17)"
    genre_names := some ["Drama"]
    origin_country := some ["US"]
    popularity := 5
    vote_average := 7
    vote_count := 100 }

/-- A concrete teen Comedy row used to instantiate theorems. -/
def rowComedy : Row :=
  { first_air_date := some ⟨2021, 3, 4⟩
    year := some 2021
    decade := some 2020
    user_age := 30
    age_group := some "Teen (13–17)"
    genre_names := some ["Comedy"]
    origin_country := some ["US"]
    popularity := 10
    vote_average := 6
    vote_count := 50 }

/-- A concrete raw input row with a parseable date and no `age_group`
value, used to instantiate the loader theorems. -/
def inRow1 : InputRow :=
  { first_air_date := some "2021-03-04"
    user_age := 30
    age_group := none
    genre_names := some ["Drama"]
    origin_country := some ["US"]
    popularity := 5
    vote_average := 7
    vote_count := 100 }

/-- A concrete raw input row whose date cell is unparseable text. -/
def inRowBad : InputRow :=
  { first_air_date := some "not a date"
    user_age := 16
    age_group := none
    genre_names := some ["Drama"]
    origin_country := some ["US"]
    popularity := 5
    vote_average := 7
    vote_count := 100 }

/-- A parse function that accepts every string as 2021-03-04; stands in
for a successful `pd.to_datetime` on the strings it is applied to. -/
def pdSome : String → Option Date := fun _ => some ⟨2021, 3, 4⟩

/-- A parse function that rejects every string; stands in for
`pd.to_datetime(..., errors="coerce")` on unparseable text. -/
def pdNone : String → Option Date := fun _ => none

/-- C1 counterexample: with the full domain of non-null age-group labels
selected and an empty genre selection, the code returns the empty
table, not the original one-row table, because the genre predicate
`any(g in genres for g in selected_genres)` is false when
`selected_genres` is empty. -/
theorem C1_counterexample :
    dfFilt [rowDrama] ["Teen (13–17)"] [] ≠ [rowDrama] := by
  decide

/-- C1 (amended): if the selected genre set is empty, the genre
predicate rejects every row, so filtering any table with any age-group
selection and an empty genre selection yields the empty table — in
particular the full-domain / empty-genres filter returns the empty
table, not the original. -/
theorem C1_empty_genres_empty_result (df : List Row)
    (selectedAgeGroups : List String) :
    dfFilt df selectedAgeGroups [] = [] := by
  unfold dfFilt
  generalize df.filter (agePred selectedAgeGroups) = l
  induction l with
  | nil => rfl
  | cons r rest ih =>
    have h : genrePred [] r = false := by
      unfold genrePred
      cases r.genre_names <;> rfl
    simp [List.filter_cons, h, ih]

/-- C2: with a non-empty genre selection, a row passes the genre
predicate iff its `genre_names` is a sequence meeting the selection;
a row whose `genre_names` is not a sequence never passes (the
predicate is total, returning false, not an error). -/
theorem C2_genre_pred_iff (selectedGenres : List String)
    (hne : selectedGenres ≠ []) (r : Row) :
    (genrePred selectedGenres r = true ↔
      ∃ gs, r.genre_names = some gs ∧ ∃ g ∈ selectedGenres, g ∈ gs) ∧
    (r.genre_names = none → genrePred selectedGenres r = false) := by
  constructor
  · unfold genrePred
    cases hg : r.genre_names with
    | none =>
      simp
    | some gs =>
      simp [List.any_eq_true]
  · intro h0
    unfold genrePred
    rw [h0]

/-- C2 witness: instantiated at the concrete selection `{"Drama"}`; the
Drama row passes and the Comedy row is excluded. -/
theorem C2_witness :
    genrePred ["Drama"] rowDrama = true ∧ genrePred ["Drama"] rowComedy = false := by
  constructor
  · exact (C2_genre_pred_iff ["Drama"] (by decide) rowDrama).1.mpr
      ⟨["Drama"], rfl, "Drama", by decide, by decide⟩
  · cases hb : genrePred ["Drama"] rowComedy with
    | false => rfl
    | true =>
      have h := (C2_genre_pred_iff ["Drama"] (by decide) rowComedy).1.mp hb
      revert h
      decide

/-- C3: a row passes the age-group predicate iff its `age_group` is a
label belonging to the selection; a row with null `age_group` never
passes, whatever the selection of labels. -/
theorem C3_age_pred_iff (selectedAgeGroups : List String) (r : Row) :
    (agePred selectedAgeGroups r = true ↔
      ∃ a, r.age_group = some a ∧ a ∈ selectedAgeGroups) ∧
    (r.age_group = none → agePred selectedAgeGroups r = false) := by
  constructor
  · unfold agePred
    cases hg : r.age_group with
    | none => simp
    | some a => simp
  · intro h0
    unfold agePred
    rw [h0]

/-- C3 witness: the Drama teen row passes for the selection holding its
label, and a null-age-group row is rejected by every selection tried. -/
theorem C3_witness :
    agePred ["Teen (13–17)"] rowDrama = true ∧
    agePred ["Teen (13–17)"]
      { rowDrama with age_group := none } = false := by
  constructor
  · exact (C3_age_pred_iff ["Teen (13–17)"] rowDrama).1.mpr
      ⟨"Teen (13–17)", rfl, by decide⟩
  · exact (C3_age_pred_iff ["Teen (13–17)"] _).2 rfl

/-- C4: filtering is idempotent — applying `df_filt` construction twice
with the same selections equals applying it once. -/
theorem C4_filter_idempotent (df : List Row)
    (selectedAgeGroups selectedGenres : List String) :
    dfFilt (dfFilt df selectedAgeGroups selectedGenres)
        selectedAgeGroups selectedGenres =
      dfFilt df selectedAgeGroups selectedGenres := by
  unfold dfFilt
  simp only [List.filter_filter]
  apply List.filter_congr
  intro r _
  cases agePred selectedAgeGroups r <;> cases genrePred selectedGenres r <;> rfl

/-- C10: filtering is monotone in both selections — enlarging the
age-group selection and the genre selection (both genre selections
non-empty, or both empty) only enlarges the filtered row set. -/
theorem C10_filter_monotone (df : List Row)
    (ags1 ags2 sel1 sel2 : List String)
    (hags : ∀ a ∈ ags1, a ∈ ags2) (hsel : ∀ g ∈ sel1, g ∈ sel2)
    (hne : (sel1 ≠ [] ∧ sel2 ≠ []) ∨ (sel1 = [] ∧ sel2 = []))
    (r : Row) (hr : r ∈ dfFilt df ags1 sel1) :
    r ∈ dfFilt df ags2 sel2 := by
  unfold dfFilt at hr ⊢
  rw [List.mem_filter] at hr ⊢
  rw [List.mem_filter] at hr ⊢
  obtain ⟨⟨hmem, hage⟩, hgen⟩ := hr
  refine ⟨⟨hmem, ?_⟩, ?_⟩
  · unfold agePred at hage ⊢
    cases hg : r.age_group with
    | none => rw [hg] at hage; exact absurd hage (by simp)
    | some a =>
      rw [hg] at hage
      exact List.elem_iff.mpr (hags a (List.elem_iff.mp hage))
  · unfold genrePred at hgen ⊢
    cases hg : r.genre_names with
    | none => rw [hg] at hgen; exact absurd hgen (by simp)
    | some gs =>
      rw [hg] at hgen
      rw [List.any_eq_true] at hgen ⊢
      obtain ⟨g, hg1, hg2⟩ := hgen
      exact ⟨g, hsel g hg1, hg2⟩

/-- C10 witness: the Drama teen row passing the smaller selections also
passes the enlarged selections. -/
theorem C10_witness :
    rowDrama ∈ dfFilt [rowDrama, rowComedy] ["Teen (13–17)", "Adult (25–34)"]
      ["Drama", "Comedy"] :=
  C10_filter_monotone [rowDrama, rowComedy] ["Teen (13–17)"]
    ["Teen (13–17)", "Adult (25–34)"] ["Drama"] ["Drama", "Comedy"]
    (by decide) (by decide) (Or.inl ⟨by decide, by decide⟩)
    rowDrama (by decide)

/-- C5: when the filters yield zero rows, every downstream view degrades
gracefully — the row-count metric is 0, both mean metrics are null, and
every correlation-matrix entry is null. -/
theorem C5_empty_view_graceful (df : List Row)
    (selectedAgeGroups selectedGenres : List String)
    (h : dfFilt df selectedAgeGroups selectedGenres = []) :
    totalShows (dfFilt df selectedAgeGroups selectedGenres) = 0 ∧
    meanOpt ((dfFilt df selectedAgeGroups selectedGenres).map
      fun r => r.vote_average) = none ∧
    meanOpt ((dfFilt df selectedAgeGroups selectedGenres).map
      fun r => r.popularity) = none ∧
    ∀ line ∈ corrMatrix (dfFilt df selectedAgeGroups selectedGenres),
      ∀ e ∈ line, e = none := by
  rw [h]
  refine ⟨rfl, rfl, rfl, ?_⟩
  intro line hline e he
  simp only [corrMatrix, numericCols, List.map_nil, List.mem_map] at hline
  obtain ⟨f, _, hf⟩ := hline
  subst hf
  simp only [List.mem_map] at he
  obtain ⟨g, _, hg⟩ := he
  subst hg
  simp [corrEntry]

/-- C5 witness: an empty age-group selection empties the filtered view;
the row-count metric on it is 0 and the vote-average mean is null. -/
theorem C5_witness :
    totalShows (dfFilt [rowDrama] [] ["Drama"]) = 0 ∧
    meanOpt ((dfFilt [rowDrama] [] ["Drama"]).map
      fun r => r.vote_average) = none := by
  have h := C5_empty_view_graceful [rowDrama] [] ["Drama"] (by decide)
  exact ⟨h.1, h.2.1⟩

/-- C6: after loading, every row of the table (and of any filtered view
of it) satisfies the decade invariant — `decade = floor(year/10)*10`
whenever `year` is non-null, and `year` and `decade` are both null
whenever `first_air_date` is null; no operation mutates rows, so the
filtered views contain the same row values. -/
theorem C6_decade_invariant (parseDate : String → Option Date)
    (hasAgeGroup : Bool) (rows : List InputRow)
    (ags sel : List String) (r : Row)
    (h : r ∈ load parseDate hasAgeGroup rows ∨
      r ∈ dfFilt (load parseDate hasAgeGroup rows) ags sel) :
    (∀ y, r.year = some y → r.decade = some (y.fdiv 10 * 10)) ∧
    (r.first_air_date = none → r.year = none ∧ r.decade = none) := by
  have hmem : r ∈ load parseDate hasAgeGroup rows := by
    rcases h with h | h
    · exact h
    · unfold dfFilt at h
      rw [List.mem_filter] at h
      rw [List.mem_filter] at h
      exact h.1.1
  unfold load at hmem
  rw [List.mem_map] at hmem
  obtain ⟨ir, _, hir⟩ := hmem
  subst hir
  unfold loadRow
  cases hd : parsedDate parseDate ir with
  | none => exact ⟨fun y hy => by simp [hd] at hy, fun _ => by simp [hd]⟩
  | some d =>
    refine ⟨fun y hy => ?_, fun hnone => ?_⟩
    · simp only [hd] at hy ⊢
      have hy2 : d.year = y := by simpa using hy
      simp [hy2]
    · simp only [hd] at hnone
      exact absurd hnone (by simp)

/-- C6 witness: a loaded concrete row with year 2021 has decade 2020. -/
theorem C6_witness : (loadRow pdSome false inRow1).decade = some 2020 := by
  have h := (C6_decade_invariant pdSome false [inRow1] [] []
    (loadRow pdSome false inRow1) (Or.inl (by simp [load]))).1 2021 rfl
  simpa using h

/-- C7: a row whose date cell is missing or unparseable is loaded with a
null date, null year and null decade, and is retained — the loaded table
always has exactly as many rows as the input. -/
theorem C7_null_date_row_retained (parseDate : String → Option Date)
    (hasAgeGroup : Bool) (rows : List InputRow) (ir : InputRow)
    (hmem : ir ∈ rows) (hbad : parsedDate parseDate ir = none) :
    loadRow parseDate hasAgeGroup ir ∈ load parseDate hasAgeGroup rows ∧
    (loadRow parseDate hasAgeGroup ir).first_air_date = none ∧
    (loadRow parseDate hasAgeGroup ir).year = none ∧
    (loadRow parseDate hasAgeGroup ir).decade = none ∧
    (load parseDate hasAgeGroup rows).length = rows.length := by
  refine ⟨?_, ?_, ?_, ?_, ?_⟩
  · unfold load
    rw [List.mem_map]
    exact ⟨ir, hmem, rfl⟩
  · simp [loadRow, hbad]
  · simp [loadRow, hbad]
  · simp [loadRow, hbad]
  · unfold load
    exact List.length_map rows _
/-- C7 witness: the concrete unparseable-date row is retained with null
date, year and decade, and the one-row table keeps length one. -/
theorem C7_witness :
    (loadRow pdNone false inRowBad).year = none ∧
    (load pdNone false [inRowBad]).length = 1 := by
  have h := C7_null_date_row_retained pdNone false [inRowBad] inRowBad
    (by decide) (by decide)
  exact ⟨h.2.2.1, h.2.2.2.2⟩

/-- C8: when the CSV has no `age_group` column the loader derives it
from `user_age` by the fixed half-open bins, each bin giving its fixed
label, ages outside 13..70 giving null, and the result always being one
of the six labels or null; when the column is present the loaded value
is the input value, unchanged. -/
theorem C8_age_group_derivation (parseDate : String → Option Date)
    (ir : InputRow) :
    ((loadRow parseDate true ir).age_group = ir.age_group) ∧
    ((loadRow parseDate false ir).age_group = ageGroupOfAge ir.user_age) ∧
    (12 < ir.user_age ∧ ir.user_age ≤ 17 →
      (loadRow parseDate false ir).age_group = some "Teen (13–17)") ∧
    (17 < ir.user_age ∧ ir.user_age ≤ 24 →
      (loadRow parseDate false ir).age_group = some "Young Adult (18–24)") ∧
    (24 < ir.user_age ∧ ir.user_age ≤ 34 →
      (loadRow parseDate false ir).age_group = some "Adult (25–34)") ∧
    (34 < ir.user_age ∧ ir.user_age ≤ 44 →
      (loadRow parseDate false ir).age_group = some "Mid Adult (35–44)") ∧
    (44 < ir.user_age ∧ ir.user_age ≤ 54 →
      (loadRow parseDate false ir).age_group = some "Older Adult (45–54)") ∧
    (54 < ir.user_age ∧ ir.user_age ≤ 70 →
      (loadRow parseDate false ir).age_group = some "Senior (55–70)") ∧
    (ir.user_age < 13 ∨ 70 < ir.user_age →
      (loadRow parseDate false ir).age_group = none) ∧
    ((loadRow parseDate false ir).age_group = none ∨
      ∃ l ∈ ageGroupLabels, (loadRow parseDate false ir).age_group = some l) := by
  have hbase : (loadRow parseDate false ir).age_group = ageGroupOfAge ir.user_age := rfl
  have htrue : (loadRow parseDate true ir).age_group = ir.age_group := rfl
  refine ⟨htrue, hbase, ?_, ?_, ?_, ?_, ?_, ?_, ?_, ?_⟩ <;>
    rw [hbase] <;> unfold ageGroupOfAge
  · intro hc; rw [if_pos hc]
  · intro hc
    rw [if_neg (by omega), if_pos hc]
  · intro hc
    rw [if_neg (by omega), if_neg (by omega), if_pos hc]
  · intro hc
    rw [if_neg (by omega), if_neg (by omega), if_neg (by omega), if_pos hc]
  · intro hc
    rw [if_neg (by omega), if_neg (by omega), if_neg (by omega),
      if_neg (by omega), if_pos hc]
  · intro hc
    rw [if_neg (by omega), if_neg (by omega), if_neg (by omega),
      if_neg (by omega), if_neg (by omega), if_pos hc]
  · intro hc
    rw [if_neg (by omega), if_neg (by omega), if_neg (by omega),
      if_neg (by omega), if_neg (by omega), if_neg (by omega)]
  · by_cases h1 : 12 < ir.user_age ∧ ir.user_age ≤ 17
    · exact Or.inr ⟨"Teen (13–17)", by decide, by rw [if_pos h1]⟩
    · by_cases h2 : 17 < ir.user_age ∧ ir.user_age ≤ 24
      · exact Or.inr ⟨"Young Adult (18–24)", by decide,
          by rw [if_neg h1, if_pos h2]⟩
      · by_cases h3 : 24 < ir.user_age ∧ ir.user_age ≤ 34
        · exact Or.inr ⟨"Adult (25–34)", by decide,
            by rw [if_neg h1, if_neg h2, if_pos h3]⟩
        · by_cases h4 : 34 < ir.user_age ∧ ir.user_age ≤ 44
          · exact Or.inr ⟨"Mid Adult (35–44)", by decide,
              by rw [if_neg h1, if_neg h2, if_neg h3, if_pos h4]⟩
          · by_cases h5 : 44 < ir.user_age ∧ ir.user_age ≤ 54
            · exact Or.inr ⟨"Older Adult (45–54)", by decide,
                by rw [if_neg h1, if_neg h2, if_neg h3, if_neg h4, if_pos h5]⟩
            · by_cases h6 : 54 < ir.user_age ∧ ir.user_age ≤ 70
              · exact Or.inr ⟨"Senior (55–70)", by decide,
                  by rw [if_neg h1, if_neg h2, if_neg h3, if_neg h4,
                    if_neg h5, if_pos h6]⟩
              · exact Or.inl (by rw [if_neg h1, if_neg h2, if_neg h3,
                  if_neg h4, if_neg h5, if_neg h6])

/-- C8 witness: the concrete 16-year-old input row gets the Teen label,
and the concrete 30-year-old row the Adult label. -/
theorem C8_witness :
    (loadRow pdNone false inRowBad).age_group = some "Teen (13–17)" ∧
    (loadRow pdSome false inRow1).age_group = some "Adult (25–34)" := by
  constructor
  · exact (C8_age_group_derivation pdNone inRowBad).2.2.1 (by decide)
  · exact (C8_age_group_derivation pdSome inRow1).2.2.2.2.1 (by decide)

/-- C9: for every table, the top-genres view has at most ten entries,
is sorted by descending count, and each entry carries the exact
occurrence count of its genre in the exploded view, which is positive —
no zero-count genre ever appears. -/
theorem C9_top_genres (df : List Row) :
    (genreCounts df).length ≤ 10 ∧
    List.Sorted cntGE (genreCounts df) ∧
    ∀ p ∈ genreCounts df,
      p.2 = (explodeGenres df).count p.1 ∧ 0 < p.2 := by
  refine ⟨?_, ?_, ?_⟩
  · unfold genreCounts
    simpa using List.length_take_le 10 _
  · unfold genreCounts
    exact List.Pairwise.sublist (List.take_sublist _ _)
      (List.sorted_insertionSort cntGE _)
  · intro p hp
    unfold genreCounts at hp
    have hp2 := List.mem_of_mem_take hp
    rw [List.mem_insertionSort] at hp2
    rw [List.mem_map] at hp2
    obtain ⟨g, hg, hgp⟩ := hp2
    have hgex : g ∈ explodeGenres df := by
      simpa [uniqueFirst] using hg
    subst hgp
    exact ⟨rfl, List.count_pos_iff.mpr hgex⟩

/-- C9 witness: on the concrete one-row table the view has at most ten
entries and every entry has a positive count. -/
theorem C9_witness :
    (genreCounts [rowDrama]).length ≤ 10 ∧
    ∀ p ∈ genreCounts [rowDrama], 0 < p.2 := by
  have h := C9_top_genres [rowDrama]
  exact ⟨h.1, fun p hp => (h.2.2 p hp).2⟩
